import Mathlib

/-!
Verification development for the AmchiScript language pipeline
(lexer `src/lexer.ts`, parser `src/parser.ts`, client interpreter
`src/client/src/interpreter.ts`, client environment
`src/client/src/environment.ts`).

The TypeScript sources are shallowly embedded: AST node interfaces become
inductive types, the recursive-descent parser and the tree-walking
interpreter become fuel-indexed total functions, the mutable interpreter
state (current environment, output sink, input queue) is threaded
explicitly, and thrown exceptions (`RuntimeError`, `BreakException`,
`ContinueException`, `ReturnException`) become an explicit signal type.

JavaScript runtime values are modelled as a tagged union.  Numbers are
modelled as exact rationals extended with `NaN` and the two infinities
(IEEE-754 rounding of float64 is not modelled; every input appearing in a
theorem below is exact in both models).  The host `Number(string)`
coercion and `String(value)` conversion used by the interpreter are
modelled on their decimal/hex/octal/binary-literal fragment.
-/

namespace AmchiScript

/-- Literal payloads the parser stores in a `Literal` node: the raw text of
NUMBER and STRING tokens (both kept as strings, exactly as
`{ type: 'Literal', value: token.value, raw: token.value }` does), and the
fixed `true` / `false` / `null` values for `khara` / `khota` / `rikam`. -/
inductive LitVal where
  | str (s : String)
  | bool (b : Bool)
  | null
deriving DecidableEq, Repr

/-- Expression AST (`types.ts`): Literal, Identifier, BinaryExpression,
UnaryExpression, CallExpression.  `MemberExpression` is declared in
`types.ts` but never produced by the parser nor evaluated by the
interpreter, so it is omitted from the embedding. -/
inductive Expr where
  | lit (value : LitVal) (raw : String)
  | ident (name : String)
  | binary (left : Expr) (operator : String) (right : Expr)
  | unary (operator : String) (argument : Expr)
  | call (callee : Expr) (args : List Expr)

/-- Statement AST (`types.ts`). -/
inductive Stmt where
  | varDecl (name : String) (initializer : Option Expr)
  | assign (identifier : String) (value : Expr)
  | print (expressions : List Expr)
  | block (body : List Stmt)
  | ifS (condition : Expr) (consequent : Stmt) (alternate : Option Stmt)
  | whileS (condition : Expr) (body : Stmt)
  | funcDecl (name : String) (parameters : List String) (body : Stmt)
  | returnS (value : Option Expr)
  | breakS
  | continueS

/-- A parsed program: `Program { body: Statement[] }`. -/
structure Program where
  body : List Stmt

mutual

def exprBeq : Expr → Expr → Bool
  | Expr.lit v r, Expr.lit v' r' => v == v' && r == r'
  | Expr.ident n, Expr.ident n' => n == n'
  | Expr.binary l o r, Expr.binary l' o' r' => exprBeq l l' && o == o' && exprBeq r r'
  | Expr.unary o a, Expr.unary o' a' => o == o' && exprBeq a a'
  | Expr.call c a, Expr.call c' a' => exprBeq c c' && exprListBeq a a'
  | _, _ => false

def exprListBeq : List Expr → List Expr → Bool
  | [], [] => true
  | x :: xs, y :: ys => exprBeq x y && exprListBeq xs ys
  | _, _ => false

end

def optExprBeq : Option Expr → Option Expr → Bool
  | none, none => true
  | some x, some y => exprBeq x y
  | _, _ => false

def listStrBeq : List String → List String → Bool
  | [], [] => true
  | x :: xs, y :: ys => x == y && listStrBeq xs ys
  | _, _ => false

mutual

def stmtBeq : Stmt → Stmt → Bool
  | Stmt.varDecl n i, Stmt.varDecl n' i' => n == n' && optExprBeq i i'
  | Stmt.assign n v, Stmt.assign n' v' => n == n' && exprBeq v v'
  | Stmt.print es, Stmt.print es' => exprListBeq es es'
  | Stmt.block b, Stmt.block b' => stmtListBeq b b'
  | Stmt.ifS c k a, Stmt.ifS c' k' a' => exprBeq c c' && stmtBeq k k' && optStmtBeq a a'
  | Stmt.whileS c b, Stmt.whileS c' b' => exprBeq c c' && stmtBeq b b'
  | Stmt.funcDecl n p b, Stmt.funcDecl n' p' b' => n == n' && listStrBeq p p' && stmtBeq b b'
  | Stmt.returnS v, Stmt.returnS v' => optExprBeq v v'
  | Stmt.breakS, Stmt.breakS => true
  | Stmt.continueS, Stmt.continueS => true
  | _, _ => false

def stmtListBeq : List Stmt → List Stmt → Bool
  | [], [] => true
  | x :: xs, y :: ys => stmtBeq x y && stmtListBeq xs ys
  | _, _ => false

def optStmtBeq : Option Stmt → Option Stmt → Bool
  | none, none => true
  | some x, some y => stmtBeq x y
  | _, _ => false

end

/-- JavaScript numbers as used by the interpreter: exact rationals extended
with `NaN` and the infinities (negative zero is not distinguished). -/
inductive JsNum where
  | nan
  | posInf
  | negInf
  | fin (q : ℚ)
deriving DecidableEq, Repr

namespace JsNum

def isNaN : JsNum → Bool
  | nan => true
  | _ => false

def neg : JsNum → JsNum
  | nan => nan
  | posInf => negInf
  | negInf => posInf
  | fin q => fin (-q)

def add : JsNum → JsNum → JsNum
  | nan, _ => nan
  | _, nan => nan
  | posInf, negInf => nan
  | negInf, posInf => nan
  | posInf, _ => posInf
  | _, posInf => posInf
  | negInf, _ => negInf
  | _, negInf => negInf
  | fin a, fin b => fin (a + b)

def sub (a b : JsNum) : JsNum := add a (neg b)

def mul : JsNum → JsNum → JsNum
  | nan, _ => nan
  | _, nan => nan
  | posInf, posInf => posInf
  | posInf, negInf => negInf
  | negInf, posInf => negInf
  | negInf, negInf => posInf
  | posInf, fin b => if b = 0 then nan else if 0 < b then posInf else negInf
  | fin a, posInf => if a = 0 then nan else if 0 < a then posInf else negInf
  | negInf, fin b => if b = 0 then nan else if 0 < b then negInf else posInf
  | fin a, negInf => if a = 0 then nan else if 0 < a then negInf else posInf
  | fin a, fin b => fin (a * b)

def div : JsNum → JsNum → JsNum
  | nan, _ => nan
  | _, nan => nan
  | posInf, posInf => nan
  | posInf, negInf => nan
  | negInf, posInf => nan
  | negInf, negInf => nan
  | posInf, fin b => if 0 ≤ b then posInf else negInf
  | negInf, fin b => if 0 ≤ b then negInf else posInf
  | fin _, posInf => fin 0
  | fin _, negInf => fin 0
  | fin a, fin b =>
    if b = 0 then
      if a = 0 then nan else if 0 < a then posInf else negInf
    else fin (a / b)

/-- Truncation toward zero of a rational, as JavaScript `%` uses. -/
def trunc (q : ℚ) : ℤ := if 0 ≤ q then ⌊q⌋ else ⌈q⌉

def mod : JsNum → JsNum → JsNum
  | nan, _ => nan
  | _, nan => nan
  | posInf, _ => nan
  | negInf, _ => nan
  | fin a, posInf => fin a
  | fin a, negInf => fin a
  | fin a, fin b =>
    if b = 0 then nan else fin (a - b * (trunc (a / b) : ℚ))

def ltB : JsNum → JsNum → Bool
  | nan, _ => false
  | _, nan => false
  | negInf, negInf => false
  | negInf, _ => true
  | _, negInf => false
  | posInf, _ => false
  | fin _, posInf => true
  | fin a, fin b => decide (a < b)

def leB : JsNum → JsNum → Bool
  | nan, _ => false
  | _, nan => false
  | negInf, _ => true
  | fin _, negInf => false
  | posInf, negInf => false
  | fin a, fin b => decide (a ≤ b)
  | fin _, posInf => true
  | posInf, fin _ => false
  | posInf, posInf => true

/-- Equality used by the loose `==` once both sides are numbers:
`NaN` compares unequal to everything, including itself. -/
def eqB : JsNum → JsNum → Bool
  | nan, _ => false
  | _, nan => false
  | a, b => decide (a = b)

end JsNum

/-- The whitespace characters `Number(string)` strips before conversion. -/
def isJsSpace (c : Char) : Bool :=
  c = ' ' || c = '\t' || c = '\n' || c = '\r' || c = '\x0b' || c = '\x0c'

def trimJs (cs : List Char) : List Char :=
  ((cs.dropWhile isJsSpace).reverse.dropWhile isJsSpace).reverse

def natOfDigits (cs : List Char) : Nat :=
  cs.foldl (fun acc c => acc * 10 + (c.toNat - '0'.toNat)) 0

def isHexDigitJs (c : Char) : Bool :=
  c.isDigit || ('a' ≤ c && c ≤ 'f') || ('A' ≤ c && c ≤ 'F')

def hexDigitVal (c : Char) : Nat :=
  if c.isDigit then c.toNat - '0'.toNat
  else if 'a' ≤ c && c ≤ 'f' then c.toNat - 'a'.toNat + 10
  else c.toNat - 'A'.toNat + 10

def natOfBase (base : Nat) (val : Char → Nat) (cs : List Char) : Nat :=
  cs.foldl (fun acc c => acc * base + val c) 0

def powTen (e : ℤ) : ℚ :=
  if 0 ≤ e then ((10 : ℚ) ^ e.toNat) else 1 / ((10 : ℚ) ^ (-e).toNat)

/-- Exponent suffix of a JS numeric string: empty means exponent `0`;
otherwise `e`/`E`, an optional sign and at least one digit, consuming the
whole remainder. -/
def parseExpPart : List Char → Option ℤ
  | [] => some 0
  | c :: rest =>
    if c = 'e' || c = 'E' then
      match rest with
      | '+' :: ds => if ds ≠ [] && ds.all Char.isDigit then some (natOfDigits ds : ℤ) else none
      | '-' :: ds => if ds ≠ [] && ds.all Char.isDigit then some (-(natOfDigits ds : ℤ)) else none
      | ds => if ds ≠ [] && ds.all Char.isDigit then some (natOfDigits ds : ℤ) else none
    else none

/-- Unsigned decimal part of the JS `Number(string)` grammar:
`digits [. digits]`, `. digits` or `digits .`, with an optional exponent. -/
def parseDecCore (cs : List Char) : Option ℚ :=
  let ip := cs.takeWhile Char.isDigit
  let rest := cs.dropWhile Char.isDigit
  match rest with
  | '.' :: rest2 =>
    let fp := rest2.takeWhile Char.isDigit
    let rest3 := rest2.dropWhile Char.isDigit
    if ip = [] && fp = [] then none
    else
      (parseExpPart rest3).map fun e =>
        ((natOfDigits ip : ℚ) + (natOfDigits fp : ℚ) / ((10 : ℚ) ^ fp.length)) * powTen e
  | _ =>
    if ip = [] then none
    else (parseExpPart rest).map fun e => (natOfDigits ip : ℚ) * powTen e

/-- Model of the host `Number(string)` coercion the interpreter applies to
string literals: trims whitespace, maps the empty string to `0`, accepts
`Infinity` forms, `0x`/`0o`/`0b` integer literals and signed decimal
literals with optional fraction and exponent; everything else is `NaN`. -/
def strToNum (s : String) : JsNum :=
  match trimJs s.data with
  | [] => JsNum.fin 0
  | cs =>
    if cs = "Infinity".data || cs = "+Infinity".data then JsNum.posInf
    else if cs = "-Infinity".data then JsNum.negInf
    else
      match cs with
      | '0' :: 'x' :: rest =>
        if rest ≠ [] && rest.all isHexDigitJs then JsNum.fin (natOfBase 16 hexDigitVal rest : ℚ) else JsNum.nan
      | '0' :: 'X' :: rest =>
        if rest ≠ [] && rest.all isHexDigitJs then JsNum.fin (natOfBase 16 hexDigitVal rest : ℚ) else JsNum.nan
      | '0' :: 'o' :: rest =>
        if rest ≠ [] && rest.all (fun c => '0' ≤ c && c ≤ '7') then JsNum.fin (natOfBase 8 (fun c => c.toNat - '0'.toNat) rest : ℚ) else JsNum.nan
      | '0' :: 'O' :: rest =>
        if rest ≠ [] && rest.all (fun c => '0' ≤ c && c ≤ '7') then JsNum.fin (natOfBase 8 (fun c => c.toNat - '0'.toNat) rest : ℚ) else JsNum.nan
      | '0' :: 'b' :: rest =>
        if rest ≠ [] && rest.all (fun c => c = '0' || c = '1') then JsNum.fin (natOfBase 2 (fun c => c.toNat - '0'.toNat) rest : ℚ) else JsNum.nan
      | '0' :: 'B' :: rest =>
        if rest ≠ [] && rest.all (fun c => c = '0' || c = '1') then JsNum.fin (natOfBase 2 (fun c => c.toNat - '0'.toNat) rest : ℚ) else JsNum.nan
      | '+' :: rest =>
        match parseDecCore rest with
        | some q => JsNum.fin q
        | none => JsNum.nan
      | '-' :: rest =>
        match parseDecCore rest with
        | some q => JsNum.fin (-q)
        | none => JsNum.nan
      | _ =>
        match parseDecCore cs with
        | some q => JsNum.fin q
        | none => JsNum.nan

/-- Decimal digits of the fraction `r / den` (with `r < den`), up to 17
places (float64 never needs more; non-terminating expansions of exact
rationals are cut off there). -/
def fracDigits : Nat → Nat → Nat → String
  | 0, _, _ => ""
  | k + 1, r, den =>
    if r = 0 then ""
    else toString (r * 10 / den) ++ fracDigits k (r * 10 % den) den

def ratToStringNN (q : ℚ) : String :=
  let n := q.num.toNat
  let ip := n / q.den
  let r := n % q.den
  if r = 0 then toString ip
  else toString ip ++ "." ++ fracDigits 17 r q.den

/-- Model of JavaScript `String(number)` on the numbers this development
evaluates (plain decimal notation; the exponential forms JS switches to for
very large/small magnitudes are not modelled). -/
def numToString : JsNum → String
  | JsNum.nan => "NaN"
  | JsNum.posInf => "Infinity"
  | JsNum.negInf => "-Infinity"
  | JsNum.fin q => if q < 0 then "-" ++ ratToStringNN (-q) else ratToStringNN q

/-- Runtime values (`number | string | boolean | null | undefined` plus the
`FunctionDeclaration` statement objects the interpreter stores in the
environment and calls).  JavaScript compares two distinct function objects
by reference; this structural model identifies structurally equal
declarations, which no theorem below relies on. -/
inductive Value where
  | num (n : JsNum)
  | str (s : String)
  | bool (b : Bool)
  | vnull
  | undef
  | funcDecl (name : String) (parameters : List String) (body : Stmt)

namespace Value

/-- JavaScript `ToNumber`. -/
def toNumber : Value → JsNum
  | num n => n
  | str s => strToNum s
  | bool b => JsNum.fin (if b then 1 else 0)
  | vnull => JsNum.fin 0
  | undef => JsNum.nan
  | funcDecl _ _ _ => JsNum.nan

/-- JavaScript `String(value)`; a plain `FunctionDeclaration` object
stringifies as "[object Object]". -/
def jsToString : Value → String
  | num n => numToString n
  | str s => s
  | bool b => if b then "true" else "false"
  | vnull => "null"
  | undef => "undefined"
  | funcDecl _ _ _ => "[object Object]"

/-- JavaScript `ToPrimitive` on our values: function objects become their
"[object Object]" string, everything else is already primitive. -/
def toPrim : Value → Value
  | funcDecl _ _ _ => str "[object Object]"
  | v => v

/-- JavaScript truthiness. -/
def truthy : Value → Bool
  | num JsNum.nan => false
  | num (JsNum.fin q) => decide (q ≠ 0)
  | num _ => true
  | str s => decide (s ≠ "")
  | bool b => b
  | vnull => false
  | undef => false
  | funcDecl _ _ _ => true

/-- Loose `==` between primitives (no `null`/`undefined`, no objects). -/
def primEqB : Value → Value → Bool
  | num a, num b => JsNum.eqB a b
  | str a, str b => decide (a = b)
  | bool a, bool b => a = b
  | num a, str s => JsNum.eqB a (strToNum s)
  | str s, num a => JsNum.eqB (strToNum s) a
  | bool a, num b => JsNum.eqB (JsNum.fin (if a then 1 else 0)) b
  | num a, bool b => JsNum.eqB a (JsNum.fin (if b then 1 else 0))
  | bool a, str s => JsNum.eqB (JsNum.fin (if a then 1 else 0)) (strToNum s)
  | str s, bool b => JsNum.eqB (strToNum s) (JsNum.fin (if b then 1 else 0))
  | _, _ => false

/-- JavaScript loose equality `==` as the interpreter's `==`/`!=` use it. -/
def looseEq : Value → Value → Bool
  | vnull, vnull => true
  | vnull, undef => true
  | undef, vnull => true
  | undef, undef => true
  | vnull, _ => false
  | _, vnull => false
  | undef, _ => false
  | _, undef => false
  | funcDecl n p b, funcDecl n' p' b' => n == n' && listStrBeq p p' && stmtBeq b b'
  | x, y => primEqB x.toPrim y.toPrim

def strLtB (a b : String) : Bool := decide (a < b)

/-- JavaScript `<`: string-string comparison is lexicographic, anything
else goes through `ToNumber` (`NaN` makes the comparison false). -/
def jsLtB (x y : Value) : Bool :=
  match x.toPrim, y.toPrim with
  | str a, str b => strLtB a b
  | a, b => JsNum.ltB a.toNumber b.toNumber

def jsLeB (x y : Value) : Bool :=
  match x.toPrim, y.toPrim with
  | str a, str b => !strLtB b a
  | a, b => JsNum.leB a.toNumber b.toNumber

/-- JavaScript `+`: string concatenation when either primitive is a
string, numeric addition otherwise. -/
def jsAdd (x y : Value) : Value :=
  match x.toPrim, y.toPrim with
  | str a, b => str (a ++ b.jsToString)
  | a, str b => str (a.jsToString ++ b)
  | a, b => num (JsNum.add a.toNumber b.toNumber)

end Value

/-- The client `Environment` (`src/client/src/environment.ts`): a flat
`Map<string, any>` with no parent reference, modelled as an association
list with unique keys kept in insertion order. -/
def Env : Type := List (String × Value)

namespace Env

/-- `values.has(name)` / `values.get(name)` combined: the binding, if any. -/
def lookup : Env → String → Option Value
  | [], _ => none
  | (k, v) :: rest, n => if k = n then some v else lookup rest n

/-- `define(name, value)`: introduces or overwrites unconditionally. -/
def define : Env → String → Value → Env
  | [], n, v => [(n, v)]
  | (k, w) :: rest, n, v =>
    if k = n then (k, v) :: rest else (k, w) :: define rest n v

/-- `set(name, value)`: mutates an existing binding; `none` models the
thrown `Cannot assign to undefined variable` error. -/
def set : Env → String → Value → Option Env
  | [], _, _ => none
  | (k, w) :: rest, n, v =>
    if k = n then some ((k, v) :: rest)
    else (set rest n v).map fun r => (k, w) :: r

end Env

/-- Interpreter state: the `environment` field of the `Interpreter`
object, the strings sent to the output collaborator so far, and the queue
of pending answers of the input collaborator (`ghye`). -/
structure St where
  env : Env
  out : List String
  inputs : List String

/-- Abrupt outcomes of executing a statement: `BreakException`,
`ContinueException`, `ReturnException(value)` and thrown `RuntimeError`s,
plus `timeout` for fuel exhaustion of the embedding (the source recurses
without a fuel bound). -/
inductive Sig where
  | brk
  | cont
  | ret (v : Value)
  | err (msg : String)
  | timeout

/-- `stringify`: `null` prints as the literal text "nil", everything else
via `String(value)`. -/
def stringify : Value → String
  | Value.vnull => "nil"
  | v => v.jsToString

/-- `Array.prototype.join(' ')` as the `dakhava` call expression uses it:
`null` and `undefined` render empty, everything else via `String`. -/
def joinWithSpace (vs : List Value) : String :=
  String.intercalate " " (vs.map fun v =>
    match v with
    | Value.vnull => ""
    | Value.undef => ""
    | v => v.jsToString)

/-- The operator dispatch of `evaluateBinaryExpression` (both operands
already evaluated — `ani`/`kimva` do not short-circuit). -/
def applyBinary (op : String) (l r : Value) : Except Sig Value :=
  if op = "ani" then Except.ok (if l.truthy then r else l)
  else if op = "kimva" then Except.ok (if l.truthy then l else r)
  else if op = ">" then Except.ok (Value.bool (Value.jsLtB r l))
  else if op = ">=" then Except.ok (Value.bool (Value.jsLeB r l))
  else if op = "<" then Except.ok (Value.bool (Value.jsLtB l r))
  else if op = "<=" then Except.ok (Value.bool (Value.jsLeB l r))
  else if op = "==" then Except.ok (Value.bool (Value.looseEq l r))
  else if op = "!=" then Except.ok (Value.bool (!Value.looseEq l r))
  else if op = "+" then Except.ok (Value.jsAdd l r)
  else if op = "-" then Except.ok (Value.num (JsNum.sub l.toNumber r.toNumber))
  else if op = "*" then Except.ok (Value.num (JsNum.mul l.toNumber r.toNumber))
  else if op = "/" then Except.ok (Value.num (JsNum.div l.toNumber r.toNumber))
  else if op = "%" then Except.ok (Value.num (JsNum.mod l.toNumber r.toNumber))
  else Except.error (Sig.err ("Unknown binary operator: " ++ op))

mutual

/-- `Interpreter.evaluate` (client interpreter), fuel-indexed. -/
def evalE : Nat → Expr → St → St × Except Sig Value
  | 0, _, s => (s, Except.error Sig.timeout)
  | f + 1, e, s =>
    match e with
    | Expr.lit v _ =>
      match v with
      | LitVal.str str =>
        (s, Except.ok (if (strToNum str).isNaN then Value.str str else Value.num (strToNum str)))
      | LitVal.bool b => (s, Except.ok (Value.bool b))
      | LitVal.null => (s, Except.ok Value.vnull)
    | Expr.ident n =>
      match Env.lookup s.env n with
      | some v => (s, Except.ok v)
      | none => (s, Except.error (Sig.err ("Undefined variable '" ++ n ++ "'.")))
    | Expr.binary l op r =>
      match evalE f l s with
      | (s1, Except.error sig) => (s1, Except.error sig)
      | (s1, Except.ok lv) =>
        match evalE f r s1 with
        | (s2, Except.error sig) => (s2, Except.error sig)
        | (s2, Except.ok rv) =>
          match applyBinary op lv rv with
          | Except.ok v => (s2, Except.ok v)
          | Except.error sig => (s2, Except.error sig)
    | Expr.unary op a =>
      match evalE f a s with
      | (s1, Except.error sig) => (s1, Except.error sig)
      | (s1, Except.ok v) =>
        if op = "-" then (s1, Except.ok (Value.num (JsNum.neg v.toNumber)))
        else if op = "nahi" then (s1, Except.ok (Value.bool (!v.truthy)))
        else if op = "!=" then (s1, Except.ok (Value.bool (!v.truthy)))
        else (s1, Except.error (Sig.err ("Unknown unary operator: " ++ op)))
    | Expr.call callee args => evalCall f callee args s

/-- Left-to-right evaluation of an expression list (the argument and
print-expression loops of the interpreter). -/
def evalArgs : Nat → List Expr → St → St × Except Sig (List Value)
  | _, [], s => (s, Except.ok [])
  | 0, _ :: _, s => (s, Except.error Sig.timeout)
  | f + 1, e :: es, s =>
    match evalE f e s with
    | (s1, Except.error sig) => (s1, Except.error sig)
    | (s1, Except.ok v) =>
      match evalArgs f es s1 with
      | (s2, Except.error sig) => (s2, Except.error sig)
      | (s2, Except.ok vs) => (s2, Except.ok (v :: vs))

/-- `Interpreter.evaluateCallExpression`: the `ghye` and `dakhava`
built-ins are intercepted by name, then the callee is resolved through
`Environment.get` (which throws on absence), arity is checked, the
`environment` field is switched to a fresh parentless `Environment`,
parameters are bound by evaluating arguments in that state, the body runs,
a return signal becomes the result, and the previous environment is
reinstated only on the non-throwing paths (the restore statement sits
after the try/catch, not in a finally block). -/
def evalCall : Nat → Expr → List Expr → St → St × Except Sig Value
  | 0, _, _, s => (s, Except.error Sig.timeout)
  | f + 1, callee, args, s =>
    match callee with
    | Expr.ident name =>
      if name = "ghye" then
        match s.inputs with
        | i :: rest => ({ s with inputs := rest }, Except.ok (Value.str i))
        | [] => (s, Except.error (Sig.err "Input handler not provided and prompt is not available."))
      else if name = "dakhava" then
        match evalArgs f args s with
        | (s1, Except.error sig) => (s1, Except.error sig)
        | (s1, Except.ok vs) =>
          ({ s1 with out := s1.out ++ [joinWithSpace vs] }, Except.ok Value.vnull)
      else
        match Env.lookup s.env name with
        | none => (s, Except.error (Sig.err ("Undefined variable '" ++ name ++ "'.")))
        | some v =>
          match v with
          | Value.funcDecl _ params body =>
            if args.length ≠ params.length then
              (s, Except.error (Sig.err ("Function '" ++ name ++ "' expects " ++
                toString params.length ++ " arguments, got " ++ toString args.length ++ ".")))
            else
              match bindParams f params args { s with env := [] } with
              | (s1, Except.error sig) => (s1, Except.error sig)
              | (s1, Except.ok _) =>
                match execS f body s1 with
                | (s2, none) => ({ s2 with env := s.env }, Except.ok Value.undef)
                | (s2, some (Sig.ret rv)) => ({ s2 with env := s.env }, Except.ok rv)
                | (s2, some sig) => (s2, Except.error sig)
          | _ => (s, Except.error (Sig.err ("Unknown function: " ++ name)))
    | _ => (s, Except.error (Sig.err "Unknown function: non-identifier"))

/-- The parameter-binding loop of `evaluateCallExpression`: runs after the
environment switch, so each argument is evaluated in the callee state and
each resulting value is defined into the local environment. -/
def bindParams : Nat → List String → List Expr → St → St × Except Sig Unit
  | _, [], _, s => (s, Except.ok ())
  | _, _ :: _, [], s => (s, Except.ok ())
  | 0, _ :: _, _ :: _, s => (s, Except.error Sig.timeout)
  | f + 1, p :: ps, a :: rest, s =>
    match evalE f a s with
    | (s1, Except.error sig) => (s1, Except.error sig)
    | (s1, Except.ok v) => bindParams f ps rest { s1 with env := Env.define s1.env p v }

/-- `Interpreter.execute`, fuel-indexed; `none` is normal completion. -/
def execS : Nat → Stmt → St → St × Option Sig
  | 0, _, s => (s, some Sig.timeout)
  | f + 1, st, s =>
    match st with
    | Stmt.varDecl n init =>
      match init with
      | none => ({ s with env := Env.define s.env n Value.vnull }, none)
      | some e =>
        match evalE f e s with
        | (s1, Except.error sig) => (s1, some sig)
        | (s1, Except.ok v) => ({ s1 with env := Env.define s1.env n v }, none)
    | Stmt.assign n e =>
      match evalE f e s with
      | (s1, Except.error sig) => (s1, some sig)
      | (s1, Except.ok v) =>
        match Env.set s1.env n v with
        | some env2 => ({ s1 with env := env2 }, none)
        | none => (s1, some (Sig.err ("Cannot assign to undefined variable '" ++ n ++ "'.")))
    | Stmt.print es =>
      match es with
      | [] => (s, some (Sig.err "PrintStatement expects at least one expression."))
      | _ :: _ =>
        match evalArgs f es s with
        | (s1, Except.error sig) => (s1, some sig)
        | (s1, Except.ok vs) =>
          ({ s1 with out := s1.out ++ [String.join (vs.map stringify)] }, none)
    | Stmt.ifS c cons alt =>
      match evalE f c s with
      | (s1, Except.error sig) => (s1, some sig)
      | (s1, Except.ok v) =>
        if v.truthy then execS f cons s1
        else
          match alt with
          | some a => execS f a s1
          | none => (s1, none)
    | Stmt.whileS c b => execWhile f c b s
    | Stmt.block body => execList f body s
    | Stmt.breakS => (s, some Sig.brk)
    | Stmt.continueS => (s, some Sig.cont)
    | Stmt.funcDecl n ps b =>
      ({ s with env := Env.define s.env n (Value.funcDecl n ps b) }, none)
    | Stmt.returnS v =>
      match v with
      | none => (s, some (Sig.ret Value.undef))
      | some e =>
        match evalE f e s with
        | (s1, Except.error sig) => (s1, some sig)
        | (s1, Except.ok rv) => (s1, some (Sig.ret rv))

/-- `executeBlockStatement`: sequential execution in the current
environment (no child scope is created at block entry). -/
def execList : Nat → List Stmt → St → St × Option Sig
  | _, [], s => (s, none)
  | 0, _ :: _, s => (s, some Sig.timeout)
  | f + 1, st :: rest, s =>
    match execS f st s with
    | (s1, none) => execList f rest s1
    | (s1, some sig) => (s1, some sig)

/-- `executeWhileStatement`: re-evaluates the condition before every
iteration; a break signal from the body ends the loop normally, a continue
signal re-tests the condition, everything else propagates. -/
def execWhile : Nat → Expr → Stmt → St → St × Option Sig
  | 0, _, _, s => (s, some Sig.timeout)
  | f + 1, c, b, s =>
    match evalE f c s with
    | (s1, Except.error sig) => (s1, some sig)
    | (s1, Except.ok v) =>
      if v.truthy then
        match execS f b s1 with
        | (s2, none) => execWhile f c b s2
        | (s2, some Sig.brk) => (s2, none)
        | (s2, some Sig.cont) => execWhile f c b s2
        | (s2, some sig) => (s2, some sig)
      else (s1, none)

end

/-! ## Parser embedding (`src/parser.ts` over the token model of `src/types.ts`) -/

/-- The `TokenType` enum of `types.ts`. -/
inductive TokenType where
  | CHALA_SURU_KARU
  | BAS_RE_ATA
  | DAKHAVA
  | GHYE
  | HE_AHE
  | KAAM_KAR
  | PARAT_DE
  | JAR
  | NAHITAR
  | NAHITAR_JAR
  | PUNHA_KAR
  | PRATYEK_SATHI
  | THAMB
  | PUDHE_JA
  | YADI
  | NUMBER
  | STRING
  | IDENTIFIER
  | KHARA
  | KHOTA
  | RIKAM
  | JOD
  | MOJ
  | MOTHA_AHE_KA
  | LAHAN_AHE_KA
  | SARKHA_AHE_KA
  | ANI
  | KIMVA
  | NAHI
  | ASSIGN
  | PLUS
  | MINUS
  | MULTIPLY
  | DIVIDE
  | MODULO
  | EQUAL
  | NOT_EQUAL
  | GREATER
  | LESS
  | GREATER_EQUAL
  | LESS_EQUAL
  | SEMICOLON
  | COMMA
  | LPAREN
  | RPAREN
  | LBRACE
  | RBRACE
  | LBRACKET
  | RBRACKET
  | DOT
  | EOF
  | NEWLINE
  | COMMENT
deriving DecidableEq, Repr

/-- A token: kind, raw text, and source position. -/
structure Token where
  type : TokenType
  value : String
  line : Nat
  column : Nat
deriving DecidableEq, Repr

/-- `this.tokens[this.current]`.  The parser only reads past the token
array after checking `isAtEnd`, which the lexer's trailing EOF token makes
reliable; reading out of bounds is modelled as that EOF default. -/
def peekT (tk : List Token) (i : Nat) : Token :=
  tk.getD i { type := TokenType.EOF, value := "", line := 0, column := 0 }

def isAtEndP (tk : List Token) (i : Nat) : Bool :=
  (peekT tk i).type = TokenType.EOF

/-- `check(type)`. -/
def checkP (tk : List Token) (i : Nat) (t : TokenType) : Bool :=
  if isAtEndP tk i then false else (peekT tk i).type = t

/-- `checkNext(type)`. -/
def checkNextP (tk : List Token) (i : Nat) (t : TokenType) : Bool :=
  if tk.length ≤ i + 1 then false else (peekT tk (i + 1)).type = t

/-- `advance()` on the `current` index. -/
def advanceP (tk : List Token) (i : Nat) : Nat :=
  if isAtEndP tk i then i else i + 1

/-- The `Parse Error at line L, column C: msg` text every parser throw
uses, built from the token at the current index. -/
def perr (tk : List Token) (i : Nat) (msg : String) : String :=
  "Parse Error at line " ++ toString (peekT tk i).line ++ ", column " ++
    toString (peekT tk i).column ++ ": " ++ msg

/-- `consume(type, message)`: the matching token and the advanced index,
or the parse error. -/
def consumeP (tk : List Token) (i : Nat) (t : TokenType) (msg : String) :
    Except String (Token × Nat) :=
  if checkP tk i t then Except.ok (peekT tk i, advanceP tk i)
  else Except.error (perr tk i msg)

/-- The leading-newline skip loop of `parse()`. -/
def skipNewlinesP : Nat → List Token → Nat → Nat
  | 0, _, i => i
  | f + 1, tk, i =>
    if checkP tk i TokenType.NEWLINE then skipNewlinesP f tk (advanceP tk i) else i

mutual

/-- `Parser.parse()`: leading newlines, the `chala suru karu ;` marker,
the statement list, the `bas re ata ;` marker. -/
def parseP : Nat → List Token → Nat → Except String (Program × Nat)
  | 0, _, _ => Except.error "out of fuel"
  | f + 1, tk, i =>
    let i := skipNewlinesP (f + 1) tk i
    match consumeP tk i TokenType.CHALA_SURU_KARU
        "Expected \"chala suru karu\" at the beginning of the program." with
    | Except.error e => Except.error e
    | Except.ok (_, i) =>
      match consumeP tk i TokenType.SEMICOLON "Expected \";\" after \"chala suru karu\"." with
      | Except.error e => Except.error e
      | Except.ok (_, i) =>
        match programBodyP f tk i with
        | Except.error e => Except.error e
        | Except.ok (body, i) =>
          match consumeP tk i TokenType.BAS_RE_ATA
              "Expected \"bas re ata\" at the end of the program." with
          | Except.error e => Except.error e
          | Except.ok (_, i) =>
            match consumeP tk i TokenType.SEMICOLON "Expected \";\" after \"bas re ata\"." with
            | Except.error e => Except.error e
            | Except.ok (_, i) => Except.ok ({ body := body }, i)

/-- The statement-collecting loop of `parse()` (with its inner newline
skipping and early break before the end marker). -/
def programBodyP : Nat → List Token → Nat → Except String (List Stmt × Nat)
  | 0, _, _ => Except.error "out of fuel"
  | f + 1, tk, i =>
    if !checkP tk i TokenType.BAS_RE_ATA && !isAtEndP tk i then
      let j := skipNewlinesP (f + 1) tk i
      if checkP tk j TokenType.BAS_RE_ATA || isAtEndP tk j then Except.ok ([], j)
      else
        match declarationP f tk j with
        | Except.error e => Except.error e
        | Except.ok (st, j') =>
          match programBodyP f tk j' with
          | Except.error e => Except.error e
          | Except.ok (rest, j'') => Except.ok (st :: rest, j'')
    else Except.ok ([], i)

termination_by structural f => f
/-- `declaration()`: `heAhe` → variable declaration; identifier followed
by `=` → assignment; otherwise `statement()`. -/
def declarationP : Nat → List Token → Nat → Except String (Stmt × Nat)
  | 0, _, _ => Except.error "out of fuel"
  | f + 1, tk, i =>
    if checkP tk i TokenType.HE_AHE then varDeclarationP f tk (advanceP tk i)
    else if checkP tk i TokenType.IDENTIFIER && checkNextP tk i TokenType.ASSIGN then
      assignmentStatementP f tk i
    else statementP f tk i

termination_by structural f => f
/-- `varDeclaration()`. -/
def varDeclarationP : Nat → List Token → Nat → Except String (Stmt × Nat)
  | 0, _, _ => Except.error "out of fuel"
  | f + 1, tk, i =>
    match consumeP tk i TokenType.IDENTIFIER "Expected variable name." with
    | Except.error e => Except.error e
    | Except.ok (nameTok, i) =>
      if checkP tk i TokenType.ASSIGN then
        match expressionP f tk (advanceP tk i) with
        | Except.error e => Except.error e
        | Except.ok (init, i) =>
          match consumeP tk i TokenType.SEMICOLON "Expected \";\" after variable declaration." with
          | Except.error e => Except.error e
          | Except.ok (_, i) => Except.ok (Stmt.varDecl nameTok.value (some init), i)
      else
        match consumeP tk i TokenType.SEMICOLON "Expected \";\" after variable declaration." with
        | Except.error e => Except.error e
        | Except.ok (_, i) => Except.ok (Stmt.varDecl nameTok.value none, i)

/-- `statement()`: print, if, while, otherwise "Expected statement.". -/
def statementP : Nat → List Token → Nat → Except String (Stmt × Nat)
  | 0, _, _ => Except.error "out of fuel"
  | f + 1, tk, i =>
    if checkP tk i TokenType.DAKHAVA then printStatementP f tk (advanceP tk i)
    else if checkP tk i TokenType.JAR then ifStatementP f tk (advanceP tk i)
    else if checkP tk i TokenType.PUNHA_KAR then whileStatementP f tk (advanceP tk i)
    else Except.error (perr tk i "Expected statement.")

termination_by structural f => f
/-- `ifStatement()` (the `jar` keyword already consumed): condition in
parentheses, a braced consequent block, then optionally a recursive
else-if (on the dedicated `NAHITAR_JAR` token) or a braced else block. -/
def ifStatementP : Nat → List Token → Nat → Except String (Stmt × Nat)
  | 0, _, _ => Except.error "out of fuel"
  | f + 1, tk, i =>
    match consumeP tk i TokenType.LPAREN "Expected '(' after 'jar'." with
    | Except.error e => Except.error e
    | Except.ok (_, i) =>
      match expressionP f tk i with
      | Except.error e => Except.error e
      | Except.ok (cond, i) =>
        match consumeP tk i TokenType.RPAREN "Expected ')' after if condition." with
        | Except.error e => Except.error e
        | Except.ok (_, i) =>
          match consumeP tk i TokenType.LBRACE "Expected '\x7b' before if block." with
          | Except.error e => Except.error e
          | Except.ok (_, i) =>
            match declListP f tk i with
            | Except.error e => Except.error e
            | Except.ok (cons, i) =>
              match consumeP tk i TokenType.RBRACE "Expected \x7d after if block." with
              | Except.error e => Except.error e
              | Except.ok (_, i) =>
                if checkP tk i TokenType.NAHITAR_JAR then
                  match ifStatementP f tk (advanceP tk i) with
                  | Except.error e => Except.error e
                  | Except.ok (altIf, i) =>
                    Except.ok (Stmt.ifS cond (Stmt.block cons) (some altIf), i)
                else if checkP tk i TokenType.NAHITAR then
                  match consumeP tk (advanceP tk i) TokenType.LBRACE
                      "Expected '\x7b' before else block." with
                  | Except.error e => Except.error e
                  | Except.ok (_, i) =>
                    match declListP f tk i with
                    | Except.error e => Except.error e
                    | Except.ok (elseBody, i) =>
                      match consumeP tk i TokenType.RBRACE "Expected \x7d after else block." with
                      | Except.error e => Except.error e
                      | Except.ok (_, i) =>
                        Except.ok (Stmt.ifS cond (Stmt.block cons)
                          (some (Stmt.block elseBody)), i)
                else Except.ok (Stmt.ifS cond (Stmt.block cons) none, i)

termination_by structural f => f
/-- The `while (!check(RBRACE) && !isAtEnd()) body.push(declaration())`
loop shared (textually repeated) by the if, else, and while bodies. -/
def declListP : Nat → List Token → Nat → Except String (List Stmt × Nat)
  | 0, _, _ => Except.error "out of fuel"
  | f + 1, tk, i =>
    if !checkP tk i TokenType.RBRACE && !isAtEndP tk i then
      match declarationP f tk i with
      | Except.error e => Except.error e
      | Except.ok (st, i') =>
        match declListP f tk i' with
        | Except.error e => Except.error e
        | Except.ok (rest, i'') => Except.ok (st :: rest, i'')
    else Except.ok ([], i)

termination_by structural f => f
/-- `printStatement()` (the `dakhava` keyword already consumed). -/
def printStatementP : Nat → List Token → Nat → Except String (Stmt × Nat)
  | 0, _, _ => Except.error "out of fuel"
  | f + 1, tk, i =>
    match printExprsP f tk i with
    | Except.error e => Except.error e
    | Except.ok (es, i) =>
      match consumeP tk i TokenType.SEMICOLON "Expected \";\" after print statement." with
      | Except.error e => Except.error e
      | Except.ok (_, i) => Except.ok (Stmt.print es, i)

/-- The do/while comma loop of `printStatement()`. -/
def printExprsP : Nat → List Token → Nat → Except String (List Expr × Nat)
  | 0, _, _ => Except.error "out of fuel"
  | f + 1, tk, i =>
    match expressionP f tk i with
    | Except.error e => Except.error e
    | Except.ok (e, i) =>
      if checkP tk i TokenType.COMMA then
        match printExprsP f tk (advanceP tk i) with
        | Except.error e => Except.error e
        | Except.ok (rest, i') => Except.ok (e :: rest, i')
      else Except.ok ([e], i)

termination_by structural f => f
/-- `assignmentStatement()` (debug logging omitted). -/
def assignmentStatementP : Nat → List Token → Nat → Except String (Stmt × Nat)
  | 0, _, _ => Except.error "out of fuel"
  | f + 1, tk, i =>
    match consumeP tk i TokenType.IDENTIFIER "Expected variable name." with
    | Except.error e => Except.error e
    | Except.ok (nameTok, i) =>
      match consumeP tk i TokenType.ASSIGN "Expected \"=\" in assignment." with
      | Except.error e => Except.error e
      | Except.ok (_, i) =>
        match expressionP f tk i with
        | Except.error e => Except.error e
        | Except.ok (v, i) =>
          match consumeP tk i TokenType.SEMICOLON "Expected \";\" after assignment." with
          | Except.error e => Except.error e
          | Except.ok (_, i) => Except.ok (Stmt.assign nameTok.value v, i)

/-- `whileStatement()` (the loop keyword already consumed; debug logging
omitted). -/
def whileStatementP : Nat → List Token → Nat → Except String (Stmt × Nat)
  | 0, _, _ => Except.error "out of fuel"
  | f + 1, tk, i =>
    match consumeP tk i TokenType.LPAREN "Expected \"(\" after while keyword." with
    | Except.error e => Except.error e
    | Except.ok (_, i) =>
      match expressionP f tk i with
      | Except.error e => Except.error e
      | Except.ok (cond, i) =>
        match consumeP tk i TokenType.RPAREN "Expected \")\" after while condition." with
        | Except.error e => Except.error e
        | Except.ok (_, i) =>
          match consumeP tk i TokenType.LBRACE "Expected \"\x7b\" before while body." with
          | Except.error e => Except.error e
          | Except.ok (_, i) =>
            match declListP f tk i with
            | Except.error e => Except.error e
            | Except.ok (body, i) =>
              match consumeP tk i TokenType.RBRACE "Expected \"\x7d\" after while body." with
              | Except.error e => Except.error e
              | Except.ok (_, i) =>
                Except.ok (Stmt.whileS cond (Stmt.block body), i)

termination_by structural f => f
/-- `expression()` delegates straight to `equality()`: the grammar has no
logical-or / logical-and levels. -/
def expressionP : Nat → List Token → Nat → Except String (Expr × Nat)
  | 0, _, _ => Except.error "out of fuel"
  | f + 1, tk, i => equalityP f tk i

termination_by structural f => f
/-- `equality()`. -/
def equalityP : Nat → List Token → Nat → Except String (Expr × Nat)
  | 0, _, _ => Except.error "out of fuel"
  | f + 1, tk, i =>
    match comparisonP f tk i with
    | Except.error e => Except.error e
    | Except.ok (e, i) => eqLoopP f tk e i

termination_by structural f => f
def eqLoopP : Nat → List Token → Expr → Nat → Except String (Expr × Nat)
  | 0, _, _, _ => Except.error "out of fuel"
  | f + 1, tk, e, i =>
    if checkP tk i TokenType.EQUAL || checkP tk i TokenType.NOT_EQUAL then
      let op := (peekT tk i).value
      match comparisonP f tk (advanceP tk i) with
      | Except.error e' => Except.error e'
      | Except.ok (r, i') => eqLoopP f tk (Expr.binary e op r) i'
    else Except.ok (e, i)

termination_by structural f => f
/-- `comparison()`. -/
def comparisonP : Nat → List Token → Nat → Except String (Expr × Nat)
  | 0, _, _ => Except.error "out of fuel"
  | f + 1, tk, i =>
    match termP f tk i with
    | Except.error e => Except.error e
    | Except.ok (e, i) => cmpLoopP f tk e i

termination_by structural f => f
def cmpLoopP : Nat → List Token → Expr → Nat → Except String (Expr × Nat)
  | 0, _, _, _ => Except.error "out of fuel"
  | f + 1, tk, e, i =>
    if checkP tk i TokenType.GREATER || checkP tk i TokenType.GREATER_EQUAL ||
        checkP tk i TokenType.LESS || checkP tk i TokenType.LESS_EQUAL then
      let op := (peekT tk i).value
      match termP f tk (advanceP tk i) with
      | Except.error e' => Except.error e'
      | Except.ok (r, i') => cmpLoopP f tk (Expr.binary e op r) i'
    else Except.ok (e, i)

termination_by structural f => f
/-- `term()`. -/
def termP : Nat → List Token → Nat → Except String (Expr × Nat)
  | 0, _, _ => Except.error "out of fuel"
  | f + 1, tk, i =>
    match factorP f tk i with
    | Except.error e => Except.error e
    | Except.ok (e, i) => termLoopP f tk e i

termination_by structural f => f
def termLoopP : Nat → List Token → Expr → Nat → Except String (Expr × Nat)
  | 0, _, _, _ => Except.error "out of fuel"
  | f + 1, tk, e, i =>
    if checkP tk i TokenType.PLUS || checkP tk i TokenType.MINUS then
      let op := (peekT tk i).value
      match factorP f tk (advanceP tk i) with
      | Except.error e' => Except.error e'
      | Except.ok (r, i') => termLoopP f tk (Expr.binary e op r) i'
    else Except.ok (e, i)

termination_by structural f => f
/-- `factor()`. -/
def factorP : Nat → List Token → Nat → Except String (Expr × Nat)
  | 0, _, _ => Except.error "out of fuel"
  | f + 1, tk, i =>
    match unaryP f tk i with
    | Except.error e => Except.error e
    | Except.ok (e, i) => factLoopP f tk e i

termination_by structural f => f
def factLoopP : Nat → List Token → Expr → Nat → Except String (Expr × Nat)
  | 0, _, _, _ => Except.error "out of fuel"
  | f + 1, tk, e, i =>
    if checkP tk i TokenType.MULTIPLY || checkP tk i TokenType.DIVIDE ||
        checkP tk i TokenType.MODULO then
      let op := (peekT tk i).value
      match unaryP f tk (advanceP tk i) with
      | Except.error e' => Except.error e'
      | Except.ok (r, i') => factLoopP f tk (Expr.binary e op r) i'
    else Except.ok (e, i)

termination_by structural f => f
/-- `unary()`: `-` or (a grammar-overlap quirk) the `!=` token. -/
def unaryP : Nat → List Token → Nat → Except String (Expr × Nat)
  | 0, _, _ => Except.error "out of fuel"
  | f + 1, tk, i =>
    if checkP tk i TokenType.MINUS || checkP tk i TokenType.NOT_EQUAL then
      let op := (peekT tk i).value
      match unaryP f tk (advanceP tk i) with
      | Except.error e => Except.error e
      | Except.ok (r, i') => Except.ok (Expr.unary op r, i')
    else primaryP f tk i

termination_by structural f => f
/-- `primary()`: fixed literals, number/string tokens (whose raw text is
stored as the literal value), identifiers and calls, parenthesized
expressions. -/
def primaryP : Nat → List Token → Nat → Except String (Expr × Nat)
  | 0, _, _ => Except.error "out of fuel"
  | f + 1, tk, i =>
    if checkP tk i TokenType.KHARA then
      Except.ok (Expr.lit (LitVal.bool true) "khara", advanceP tk i)
    else if checkP tk i TokenType.KHOTA then
      Except.ok (Expr.lit (LitVal.bool false) "khota", advanceP tk i)
    else if checkP tk i TokenType.RIKAM then
      Except.ok (Expr.lit LitVal.null "rikam", advanceP tk i)
    else if checkP tk i TokenType.NUMBER || checkP tk i TokenType.STRING then
      Except.ok (Expr.lit (LitVal.str (peekT tk i).value) (peekT tk i).value, advanceP tk i)
    else if checkP tk i TokenType.IDENTIFIER then
      let name := (peekT tk i).value
      let j := advanceP tk i
      if checkP tk j TokenType.LPAREN then
        let j2 := advanceP tk j
        if !checkP tk j2 TokenType.RPAREN then
          match callArgsP f tk j2 with
          | Except.error e => Except.error e
          | Except.ok (args, j3) =>
            match consumeP tk j3 TokenType.RPAREN "Expected \")\" after function arguments." with
            | Except.error e => Except.error e
            | Except.ok (_, j4) => Except.ok (Expr.call (Expr.ident name) args, j4)
        else
          match consumeP tk j2 TokenType.RPAREN "Expected \")\" after function arguments." with
          | Except.error e => Except.error e
          | Except.ok (_, j3) => Except.ok (Expr.call (Expr.ident name) [], j3)
      else Except.ok (Expr.ident name, j)
    else if checkP tk i TokenType.LPAREN then
      match expressionP f tk (advanceP tk i) with
      | Except.error e => Except.error e
      | Except.ok (e, i') =>
        match consumeP tk i' TokenType.RPAREN "Expected \")\" after expression." with
        | Except.error e => Except.error e
        | Except.ok (_, i'') => Except.ok (e, i'')
    else Except.error (perr tk i "Expected expression.")

termination_by structural f => f
/-- The do/while comma loop of the call-argument list. -/
def callArgsP : Nat → List Token → Nat → Except String (List Expr × Nat)
  | 0, _, _ => Except.error "out of fuel"
  | f + 1, tk, i =>
    match expressionP f tk i with
    | Except.error e => Except.error e
    | Except.ok (e, i) =>
      if checkP tk i TokenType.COMMA then
        match callArgsP f tk (advanceP tk i) with
        | Except.error e => Except.error e
        | Except.ok (rest, i') => Except.ok (e :: rest, i')
      else Except.ok ([e], i)

termination_by structural f => f
end

/-- Shorthand for building concrete tokens in the theorems below. -/
def tok (t : TokenType) (v : String) (line col : Nat) : Token :=
  { type := t, value := v, line := line, column := col }

mutual

/-- The block-body invariant of parsed statements: every `IfStatement`
consequent and every `WhileStatement` body is a `BlockStatement` (checked
recursively), and every `IfStatement` alternate is either a
`BlockStatement` or a nested `IfStatement` satisfying the same invariant
(the else-if chain). -/
def stmtOk : Stmt → Bool
  | Stmt.block b => stmtsOk b
  | Stmt.ifS _ cons alt => isBlockOk cons && altOk alt
  | Stmt.whileS _ body => isBlockOk body
  | Stmt.funcDecl _ _ body => stmtOk body
  | _ => true

def isBlockOk : Stmt → Bool
  | Stmt.block b => stmtsOk b
  | _ => false

def altOk : Option Stmt → Bool
  | none => true
  | some (Stmt.block b) => stmtsOk b
  | some (Stmt.ifS _ cons alt) => isBlockOk cons && altOk alt
  | some _ => false

def stmtsOk : List Stmt → Bool
  | [] => true
  | st :: rest => stmtOk st && stmtsOk rest

end

theorem varDeclShape (f : Nat) (tk : List Token) (i : Nat) (r : Stmt) (j : Nat)
    (h : varDeclarationP f tk i = Except.ok (r, j)) :
    ∃ n init, r = Stmt.varDecl n init := by
  cases f with
  | zero => simp [varDeclarationP] at h
  | succ f =>
    simp only [varDeclarationP] at h
    repeat' split at h
    any_goals cases h
    all_goals exact ⟨_, _, rfl⟩

theorem assignShape (f : Nat) (tk : List Token) (i : Nat) (r : Stmt) (j : Nat)
    (h : assignmentStatementP f tk i = Except.ok (r, j)) :
    ∃ n v, r = Stmt.assign n v := by
  cases f with
  | zero => simp [assignmentStatementP] at h
  | succ f =>
    simp only [assignmentStatementP] at h
    repeat' split at h
    any_goals cases h
    all_goals exact ⟨_, _, rfl⟩

theorem printShape (f : Nat) (tk : List Token) (i : Nat) (r : Stmt) (j : Nat)
    (h : printStatementP f tk i = Except.ok (r, j)) :
    ∃ es, r = Stmt.print es := by
  cases f with
  | zero => simp [printStatementP] at h
  | succ f =>
    simp only [printStatementP] at h
    repeat' split at h
    any_goals cases h
    all_goals exact ⟨_, rfl⟩

/-- Every statement produced by the statement-level parser functions
satisfies the block-body invariant `stmtOk`, by induction on fuel. -/
theorem parserBlockOk : ∀ f : Nat,
    (∀ tk i r j, declarationP f tk i = Except.ok (r, j) → stmtOk r = true) ∧
    (∀ tk i r j, statementP f tk i = Except.ok (r, j) → stmtOk r = true) ∧
    (∀ tk i r j, ifStatementP f tk i = Except.ok (r, j) →
        stmtOk r = true ∧ ∃ c k a, r = Stmt.ifS c k a) ∧
    (∀ tk i r j, whileStatementP f tk i = Except.ok (r, j) → stmtOk r = true) ∧
    (∀ tk i r j, declListP f tk i = Except.ok (r, j) → stmtsOk r = true) ∧
    (∀ tk i r j, programBodyP f tk i = Except.ok (r, j) → stmtsOk r = true) := by
  intro f
  induction f with
  | zero =>
    refine ⟨?_, ?_, ?_, ?_, ?_, ?_⟩ <;> intro tk i r j h
    · simp [declarationP] at h
    · simp [statementP] at h
    · simp [ifStatementP] at h
    · simp [whileStatementP] at h
    · simp [declListP] at h
    · simp [programBodyP] at h
  | succ f ih =>
    obtain ⟨ihD, ihS, ihI, ihW, ihL, ihB⟩ := ih
    refine ⟨?_, ?_, ?_, ?_, ?_, ?_⟩ <;> intro tk i r j h
    · -- declarationP
      simp only [declarationP] at h
      split at h
      · obtain ⟨n, init, rfl⟩ := varDeclShape f tk (advanceP tk i) r j h
        rfl
      · split at h
        · obtain ⟨n, v, rfl⟩ := assignShape f tk i r j h
          rfl
        · exact ihS tk i r j h
    · -- statementP
      simp only [statementP] at h
      split at h
      · obtain ⟨es, rfl⟩ := printShape f tk (advanceP tk i) r j h
        rfl
      · split at h
        · exact (ihI tk (advanceP tk i) r j h).1
        · split at h
          · exact ihW tk (advanceP tk i) r j h
          · cases h
    · -- ifStatementP
      simp only [ifStatementP] at h
      split at h
      · cases h
      rename_i x1 t1 i1 hq1
      split at h
      · cases h
      rename_i x2 cond i2 hq2
      split at h
      · cases h
      rename_i x3 t2 i3 hq3
      split at h
      · cases h
      rename_i x4 t3 i4 hq4
      split at h
      · cases h
      rename_i x5 cons i5 hq5
      split at h
      · cases h
      rename_i x6 t4 i6 hq6
      split at h
      · -- NAHITAR_JAR branch: recursive else-if
        rename_i hNJ
        split at h
        · cases h
        rename_i x7 altIf hq7
        cases h
        have hc := ihL _ _ _ _ hq5
        obtain ⟨hok, c, k, a, heq⟩ := ihI _ _ _ _ hq7
        subst heq
        refine ⟨?_, _, _, _, rfl⟩
        simp only [stmtOk, isBlockOk, altOk, hc, Bool.true_and]
        simpa [stmtOk] using hok
      · rename_i hNJ
        split at h
        · -- NAHITAR branch: else block
          rename_i hN
          split at h
          · cases h
          rename_i x7 t5 i7 hq7
          split at h
          · cases h
          rename_i x8 elseB i8 hq8
          split at h
          · cases h
          rename_i x9 t6 hq9
          cases h
          have hc := ihL _ _ _ _ hq5
          have he := ihL _ _ _ _ hq8
          exact ⟨by simp [stmtOk, isBlockOk, altOk, hc, he], _, _, _, rfl⟩
        · -- no alternate
          rename_i hN
          cases h
          have hc := ihL _ _ _ _ hq5
          exact ⟨by simp [stmtOk, isBlockOk, altOk, hc], _, _, _, rfl⟩
    · -- whileStatementP
      simp only [whileStatementP] at h
      split at h
      · cases h
      rename_i x1 t1 i1 hq1
      split at h
      · cases h
      rename_i x2 cond i2 hq2
      split at h
      · cases h
      rename_i x3 t2 i3 hq3
      split at h
      · cases h
      rename_i x4 t3 i4 hq4
      split at h
      · cases h
      rename_i x5 body i5 hq5
      split at h
      · cases h
      rename_i x6 t4 hq6
      cases h
      have hb := ihL _ _ _ _ hq5
      simp [stmtOk, isBlockOk, hb]
    · -- declListP
      simp only [declListP] at h
      split at h
      · split at h
        · cases h
        rename_i x1 st i1 hq1
        split at h
        · cases h
        rename_i x2 rest hq2
        cases h
        have h1 := ihD _ _ _ _ hq1
        have h2 := ihL _ _ _ _ hq2
        simp [stmtsOk, h1, h2]
      · cases h
        rfl
    · -- programBodyP
      simp only [programBodyP] at h
      split at h
      · split at h
        · cases h
          rfl
        · split at h
          · cases h
          rename_i x1 st j1 hq1
          split at h
          · cases h
          rename_i x2 rest hq2
          cases h
          have h1 := ihD _ _ _ _ hq1
          have h2 := ihB _ _ _ _ hq2
          simp [stmtsOk, h1, h2]
      · cases h
        rfl

/-! ## Claim C4: the expression precedence chain -/

/-- C4 counterexample.  The claim states the expression grammar has
logical-or and logical-and levels below equality, so a syntactically valid
program may use those operators.  In the source, `expression()` delegates
straight to `equality()` and no rule consumes the `ANI`/`KIMVA` tokens:
the program `chala suru karu; dakhava khara ani khara; bas re ata;` fails
to parse (the expression ends at the first `khara` and the `ani` token is
rejected where `;` is expected). -/
theorem C4_counterexample :
    parseP 100
      [tok TokenType.CHALA_SURU_KARU "chala suru karu" 1 16,
       tok TokenType.SEMICOLON ";" 1 17,
       tok TokenType.DAKHAVA "dakhava" 1 25,
       tok TokenType.KHARA "khara" 1 31,
       tok TokenType.ANI "ani" 1 35,
       tok TokenType.KHARA "khara" 1 41,
       tok TokenType.SEMICOLON ";" 1 42,
       tok TokenType.BAS_RE_ATA "bas re ata" 1 53,
       tok TokenType.SEMICOLON ";" 1 54,
       tok TokenType.EOF "" 1 54] 0
      = Except.error "Parse Error at line 1, column 35: Expected \";\" after print statement." :=
  rfl

/-- C4 amended.  The precedence chain, low to high, is equality →
relational → additive → multiplicative → unary → primary, with each
binary level left-associative; there are no logical-or/logical-and
levels, so an `ani`/`kimva` token is never consumed by the expression
grammar (the expression parser stops in front of it).  Witnessed by the
parse tree of `1 + 2 * 3 == 4 < 5 - 6`, the left-associative tree of
`7 - 8 - 9`, and the expression parse of `khara ani khara` consuming only
the first token. -/
theorem C4_amended :
    expressionP 100
      [tok TokenType.NUMBER "1" 1 1, tok TokenType.PLUS "+" 1 3,
       tok TokenType.NUMBER "2" 1 5, tok TokenType.MULTIPLY "*" 1 7,
       tok TokenType.NUMBER "3" 1 9, tok TokenType.EQUAL "==" 1 12,
       tok TokenType.NUMBER "4" 1 15, tok TokenType.LESS "<" 1 17,
       tok TokenType.NUMBER "5" 1 19, tok TokenType.MINUS "-" 1 21,
       tok TokenType.NUMBER "6" 1 23, tok TokenType.EOF "" 1 23] 0
      = Except.ok
          (Expr.binary
            (Expr.binary (Expr.lit (LitVal.str "1") "1") "+"
              (Expr.binary (Expr.lit (LitVal.str "2") "2") "*"
                (Expr.lit (LitVal.str "3") "3")))
            "=="
            (Expr.binary (Expr.lit (LitVal.str "4") "4") "<"
              (Expr.binary (Expr.lit (LitVal.str "5") "5") "-"
                (Expr.lit (LitVal.str "6") "6"))), 11) ∧
    expressionP 100
      [tok TokenType.NUMBER "7" 1 1, tok TokenType.MINUS "-" 1 3,
       tok TokenType.NUMBER "8" 1 5, tok TokenType.MINUS "-" 1 7,
       tok TokenType.NUMBER "9" 1 9, tok TokenType.EOF "" 1 9] 0
      = Except.ok
          (Expr.binary
            (Expr.binary (Expr.lit (LitVal.str "7") "7") "-"
              (Expr.lit (LitVal.str "8") "8"))
            "-" (Expr.lit (LitVal.str "9") "9"), 5) ∧
    expressionP 100
      [tok TokenType.KHARA "khara" 1 6, tok TokenType.ANI "ani" 1 10,
       tok TokenType.KHARA "khara" 1 16, tok TokenType.EOF "" 1 16] 0
      = Except.ok (Expr.lit (LitVal.bool true) "khara", 1) := by
  exact ⟨rfl, rfl, rfl⟩

/-! ## Claim C5: block-statement bodies in the parsed tree -/

/-- C5 counterexample.  The claim states every `IfStatement` alternate is
a `BlockStatement`.  An else-if chain built with the dedicated
`NAHITAR_JAR` token parses into an `IfStatement` whose alternate is
itself an `IfStatement`, not a `BlockStatement`. -/
theorem C5_counterexample :
    parseP 100
      [tok TokenType.CHALA_SURU_KARU "chala suru karu" 1 16,
       tok TokenType.SEMICOLON ";" 1 17,
       tok TokenType.JAR "jar" 2 4,
       tok TokenType.LPAREN "(" 2 6,
       tok TokenType.KHARA "khara" 2 11,
       tok TokenType.RPAREN ")" 2 12,
       tok TokenType.LBRACE "\x7b" 2 14,
       tok TokenType.RBRACE "\x7d" 2 16,
       tok TokenType.NAHITAR_JAR "nahitar jar" 2 28,
       tok TokenType.LPAREN "(" 2 30,
       tok TokenType.KHARA "khara" 2 35,
       tok TokenType.RPAREN ")" 2 36,
       tok TokenType.LBRACE "\x7b" 2 38,
       tok TokenType.RBRACE "\x7d" 2 40,
       tok TokenType.BAS_RE_ATA "bas re ata" 3 11,
       tok TokenType.SEMICOLON ";" 3 12,
       tok TokenType.EOF "" 3 12] 0
      = Except.ok
          ({ body := [Stmt.ifS (Expr.lit (LitVal.bool true) "khara") (Stmt.block [])
              (some (Stmt.ifS (Expr.lit (LitVal.bool true) "khara") (Stmt.block []) none))] },
           16) ∧
    (∀ b : List Stmt,
      Stmt.ifS (Expr.lit (LitVal.bool true) "khara") (Stmt.block []) none ≠ Stmt.block b) := by
  exact ⟨rfl, fun b h => by cases h⟩

/-- C5 amended.  In every program returned by `parse`, every
`IfStatement` consequent and every `WhileStatement` body is a
`BlockStatement` (even for single-statement sources), and every
`IfStatement` alternate is either a `BlockStatement` or — for an else-if
chain built with the dedicated `NAHITAR_JAR` token — a nested
`IfStatement` satisfying the same invariant. -/
theorem C5_amended (f : Nat) (tk : List Token) (i : Nat) (prog : Program) (j : Nat)
    (h : parseP f tk i = Except.ok (prog, j)) : stmtsOk prog.body = true := by
  cases f with
  | zero => simp [parseP] at h
  | succ f =>
    simp only [parseP] at h
    split at h
    · cases h
    rename_i x1 t1 i1 hq1
    split at h
    · cases h
    rename_i x2 t2 i2 hq2
    split at h
    · cases h
    rename_i x3 body i3 hq3
    split at h
    · cases h
    rename_i x4 t3 i4 hq4
    split at h
    · cases h
    rename_i x5 t4 hq5
    cases h
    exact (parserBlockOk f).2.2.2.2.2 _ _ _ _ hq3

/-- C5 amended, witnessed on the parse of
`chala suru karu; jar (khara) { dakhava khara; } nahitar { } punhaKar (khota) { } bas re ata;`:
both branch bodies and the loop body come back as `BlockStatement`s. -/
theorem C5_amended_witness :
    stmtsOk
      [Stmt.ifS (Expr.lit (LitVal.bool true) "khara")
        (Stmt.block [Stmt.print [Expr.lit (LitVal.bool true) "khara"]])
        (some (Stmt.block [])),
       Stmt.whileS (Expr.lit (LitVal.bool false) "khota") (Stmt.block [])] = true :=
  C5_amended 100
    [tok TokenType.CHALA_SURU_KARU "chala suru karu" 1 16,
     tok TokenType.SEMICOLON ";" 1 17,
     tok TokenType.JAR "jar" 2 4,
     tok TokenType.LPAREN "(" 2 6,
     tok TokenType.KHARA "khara" 2 11,
     tok TokenType.RPAREN ")" 2 12,
     tok TokenType.LBRACE "\x7b" 2 14,
     tok TokenType.DAKHAVA "dakhava" 2 22,
     tok TokenType.KHARA "khara" 2 28,
     tok TokenType.SEMICOLON ";" 2 29,
     tok TokenType.RBRACE "\x7d" 2 31,
     tok TokenType.NAHITAR "nahitar" 2 39,
     tok TokenType.LBRACE "\x7b" 2 41,
     tok TokenType.RBRACE "\x7d" 2 43,
     tok TokenType.PUNHA_KAR "punhaKar" 3 9,
     tok TokenType.LPAREN "(" 3 11,
     tok TokenType.KHOTA "khota" 3 16,
     tok TokenType.RPAREN ")" 3 17,
     tok TokenType.LBRACE "\x7b" 3 19,
     tok TokenType.RBRACE "\x7d" 3 21,
     tok TokenType.BAS_RE_ATA "bas re ata" 4 11,
     tok TokenType.SEMICOLON ";" 4 12,
     tok TokenType.EOF "" 4 12] 0
    { body :=
        [Stmt.ifS (Expr.lit (LitVal.bool true) "khara")
          (Stmt.block [Stmt.print [Expr.lit (LitVal.bool true) "khara"]])
          (some (Stmt.block [])),
         Stmt.whileS (Expr.lit (LitVal.bool false) "khota") (Stmt.block [])] }
    22 rfl

/-! ## Claim C1: environment restoration around user-function calls -/

/-- C1 counterexample.  The claim states that the caller's environment is
always restored after a user-function call, including when an error (other
than the return signal) propagates out of the body.  Here the body of `f`
throws `Undefined variable 'boom'.`; the call propagates the error with the
interpreter's environment left as the (empty) call environment, not the
caller environment that bound `g` and `f`. -/
theorem C1_counterexample :
    evalE 100 (Expr.call (Expr.ident "f") [])
        { env := [("g", Value.num (JsNum.fin 1)),
                  ("f", Value.funcDecl "f" [] (Stmt.block [Stmt.print [Expr.ident "boom"]]))],
          out := [], inputs := [] }
      = ({ env := [], out := [], inputs := [] },
         Except.error (Sig.err "Undefined variable 'boom'.")) ∧
    Env.lookup ([] : Env) "g" = none := by
  exact ⟨rfl, rfl⟩

/-- C1 amended.  For a resolved, arity-correct call whose parameter binding
succeeds, the previous environment is reinstated exactly when the body
completes normally or raises the return signal; when any other signal
(runtime error, break, continue) propagates out of the body, the call
rethrows it and leaves the callee state — including its environment — in
place, because the restore statement sits after the try/catch rather than
in a finally block. -/
theorem C1_amended (f : Nat) (name fname : String) (params : List String)
    (body : Stmt) (args : List Expr) (s sb s2 : St) (res : Option Sig)
    (hg : name ≠ "ghye") (hd : name ≠ "dakhava")
    (hf : Env.lookup s.env name = some (Value.funcDecl fname params body))
    (ha : args.length = params.length)
    (hb : bindParams f params args { s with env := [] } = (sb, Except.ok ()))
    (hx : execS f body sb = (s2, res)) :
    evalCall (f + 1) (Expr.ident name) args s =
      match res with
      | none => ({ s2 with env := s.env }, Except.ok Value.undef)
      | some (Sig.ret rv) => ({ s2 with env := s.env }, Except.ok rv)
      | some sig => (s2, Except.error sig) := by
  simp only [evalCall, if_neg hg, if_neg hd, hf, ha, ne_eq, not_true_eq_false, if_false,
    ite_false, hb, hx]
  cases res with
  | none => rfl
  | some sig => cases sig <;> rfl

/-- C1 amended, witnessed at a zero-parameter function with an empty block
body: the call completes normally and the caller environment comes back. -/
theorem C1_amended_witness :
    evalCall 6 (Expr.ident "f") []
        { env := [("f", Value.funcDecl "f" [] (Stmt.block []))], out := [], inputs := [] }
      = ({ env := [("f", Value.funcDecl "f" [] (Stmt.block []))], out := [], inputs := [] },
         Except.ok Value.undef) :=
  C1_amended 5 "f" "f" [] (Stmt.block []) []
    { env := [("f", Value.funcDecl "f" [] (Stmt.block []))], out := [], inputs := [] }
    { env := [], out := [], inputs := [] }
    { env := [], out := [], inputs := [] } none
    (by decide) (by decide) rfl rfl rfl rfl

/-! ## Claim C2: the call environment and the global scope -/

/-- C2 counterexample.  The claim states the fresh call environment is
parented to the global environment, so globally bound names stay
resolvable inside the body.  Here `g` is bound in the caller (global)
environment, yet reading `g` inside the body of `f` fails with
`Undefined variable 'g'.`: the call environment is a parentless fresh
`Environment`. -/
theorem C2_counterexample :
    evalE 100 (Expr.call (Expr.ident "f") [])
        { env := [("g", Value.num (JsNum.fin 1)),
                  ("f", Value.funcDecl "f" [] (Stmt.block [Stmt.print [Expr.ident "g"]]))],
          out := [], inputs := [] }
      = ({ env := [], out := [], inputs := [] },
         Except.error (Sig.err "Undefined variable 'g'.")) := rfl

/-- C2 amended.  A user-function call executes its body in a fresh, empty,
parentless environment: for a zero-parameter function whose body reads any
identifier `g`, the read fails with `Undefined variable 'g'.` no matter
what the caller's environment binds (in particular, globals are not
resolvable from inside the body). -/
theorem C2_amended (k : Nat) (name fname g : String) (s : St)
    (hg : name ≠ "ghye") (hd : name ≠ "dakhava")
    (hf : Env.lookup s.env name =
      some (Value.funcDecl fname [] (Stmt.block [Stmt.print [Expr.ident g]]))) :
    evalCall (k + 6) (Expr.ident name) [] s
      = ({ s with env := [] },
         Except.error (Sig.err ("Undefined variable '" ++ g ++ "'."))) := by
  simp only [evalCall, if_neg hg, if_neg hd, hf, bindParams, execS, execList, evalArgs,
    evalE, Env.lookup, List.length_nil, ne_eq, not_true_eq_false, if_false, ite_false]

/-- C2 amended, witnessed: `gv` is bound to `1` in the caller environment
and is still undefined inside the body of `f`. -/
theorem C2_amended_witness :
    evalCall 6 (Expr.ident "f") []
        { env := [("gv", Value.num (JsNum.fin 1)),
                  ("f", Value.funcDecl "f" [] (Stmt.block [Stmt.print [Expr.ident "gv"]]))],
          out := [], inputs := [] }
      = ({ env := [], out := [], inputs := [] },
         Except.error (Sig.err "Undefined variable 'gv'.")) :=
  C2_amended 0 "f" "f" "gv"
    { env := [("gv", Value.num (JsNum.fin 1)),
              ("f", Value.funcDecl "f" [] (Stmt.block [Stmt.print [Expr.ident "gv"]]))],
      out := [], inputs := [] }
    (by decide) (by decide) rfl

/-! ## Claim C3: where call arguments are evaluated -/

/-- C3 counterexample.  The claim states each argument expression is
evaluated in the caller's environment before the interpreter switches to
the call environment, so an identifier argument naming a caller-local
variable evaluates to its value.  Here `x` is bound to `5` in the caller
environment, yet the call `f(x)` fails with `Undefined variable 'x'.`:
the interpreter switches environments first and then evaluates the
argument in the fresh empty environment. -/
theorem C3_counterexample :
    evalE 100 (Expr.call (Expr.ident "f") [Expr.ident "x"])
        { env := [("x", Value.num (JsNum.fin 5)),
                  ("f", Value.funcDecl "f" ["a"] (Stmt.block []))],
          out := [], inputs := [] }
      = ({ env := [], out := [], inputs := [] },
         Except.error (Sig.err "Undefined variable 'x'.")) := rfl

/-- C3 amended.  The environment switch happens before argument
evaluation: each argument is evaluated in the fresh call environment
(where only the previously bound parameters are visible), so a first
argument that is an identifier always fails with `Undefined variable`,
regardless of what the caller's environment binds. -/
theorem C3_amended (k : Nat) (name fname x p : String) (ps : List String)
    (rest : List Expr) (body : Stmt) (s : St)
    (hg : name ≠ "ghye") (hd : name ≠ "dakhava")
    (hf : Env.lookup s.env name = some (Value.funcDecl fname (p :: ps) body))
    (ha : rest.length = ps.length) :
    evalCall (k + 3) (Expr.ident name) (Expr.ident x :: rest) s
      = ({ s with env := [] },
         Except.error (Sig.err ("Undefined variable '" ++ x ++ "'."))) := by
  simp only [evalCall, if_neg hg, if_neg hd, hf, bindParams, evalE, Env.lookup,
    List.length_cons, ha, ne_eq, not_true_eq_false, if_false, ite_false]

/-- C3 amended, witnessed: the caller binds `x` to `5`, and `f(x)` still
fails to resolve `x`. -/
theorem C3_amended_witness :
    evalCall 3 (Expr.ident "f") [Expr.ident "x"]
        { env := [("x", Value.num (JsNum.fin 5)),
                  ("f", Value.funcDecl "f" ["a"] (Stmt.block []))],
          out := [], inputs := [] }
      = ({ env := [], out := [], inputs := [] },
         Except.error (Sig.err "Undefined variable 'x'.")) :=
  C3_amended 0 "f" "f" "x" "a" [] [] (Stmt.block [])
    { env := [("x", Value.num (JsNum.fin 5)),
              ("f", Value.funcDecl "f" ["a"] (Stmt.block []))],
      out := [], inputs := [] }
    (by decide) (by decide) rfl rfl

/-! ## Claim C7: calling an undeclared function -/

/-- C7 counterexample.  The claim states that calling a never-declared
function `foo()` fails with an "unknown function" runtime error.  It does
fail, with no output change, but with `Undefined variable 'foo'.`: the
callee lookup goes through `Environment.get`, which throws before the
unknown-function check is reached. -/
theorem C7_counterexample :
    evalE 100 (Expr.call (Expr.ident "foo") [])
        { env := [], out := ["prev"], inputs := [] }
      = ({ env := [], out := ["prev"], inputs := [] },
         Except.error (Sig.err "Undefined variable 'foo'.")) := rfl

/-- C7 amended.  Calling a name other than the built-ins that is not bound
anywhere fails with the `Undefined variable` runtime error thrown by the
environment lookup, leaving the state (and hence the output) unchanged;
the `Unknown function` error is raised only when the name is bound to a
value that is not a `FunctionDeclaration`. -/
theorem C7_amended (k : Nat) (name : String) (args : List Expr) (s : St)
    (hg : name ≠ "ghye") (hd : name ≠ "dakhava") :
    (Env.lookup s.env name = none →
      evalCall (k + 1) (Expr.ident name) args s
        = (s, Except.error (Sig.err ("Undefined variable '" ++ name ++ "'.")))) ∧
    (∀ v, Env.lookup s.env name = some v →
      (∀ fn ps b, v ≠ Value.funcDecl fn ps b) →
      evalCall (k + 1) (Expr.ident name) args s
        = (s, Except.error (Sig.err ("Unknown function: " ++ name)))) := by
  constructor
  · intro h
    simp only [evalCall, if_neg hg, if_neg hd, h]
  · intro v h hv
    cases v with
    | funcDecl fn ps b => exact absurd rfl (hv fn ps b)
    | num n => simp only [evalCall, if_neg hg, if_neg hd, h]
    | str s' => simp only [evalCall, if_neg hg, if_neg hd, h]
    | bool b => simp only [evalCall, if_neg hg, if_neg hd, h]
    | vnull => simp only [evalCall, if_neg hg, if_neg hd, h]
    | undef => simp only [evalCall, if_neg hg, if_neg hd, h]

/-- C7 amended, witnessed: an unbound `foo` fails with the undefined
variable error, and a `bar` bound to a number fails with the unknown
function error. -/
theorem C7_amended_witness :
    (evalCall 1 (Expr.ident "foo") [] { env := [], out := ["prev"], inputs := [] }
      = ({ env := [], out := ["prev"], inputs := [] },
         Except.error (Sig.err "Undefined variable 'foo'."))) ∧
    (evalCall 1 (Expr.ident "bar") []
        { env := [("bar", Value.num (JsNum.fin 1))], out := [], inputs := [] }
      = ({ env := [("bar", Value.num (JsNum.fin 1))], out := [], inputs := [] },
         Except.error (Sig.err "Unknown function: bar"))) := by
  constructor
  · exact (C7_amended 0 "foo" [] { env := [], out := ["prev"], inputs := [] }
      (by decide) (by decide)).1 rfl
  · exact (C7_amended 0 "bar" [] { env := [("bar", Value.num (JsNum.fin 1))], out := [], inputs := [] }
      (by decide) (by decide)).2 (Value.num (JsNum.fin 1)) rfl
      (by intro fn ps b h; cases h)

/-! ## Claim C8: numeric-string coercion of literals -/

/-- C8.  Evaluating a `Literal` whose stored value is a string passing the
`!isNaN(Number(value))` test returns the corresponding number; evaluating
any other literal — a non-numeric string, or the `true`/`false`/`null`
values the parser stores — returns the stored value verbatim.  The state
is untouched in every case. -/
theorem C8_literal_coercion (f : Nat) (s : St) (raw : String) :
    (∀ v : String, (strToNum v).isNaN = false →
      evalE (f + 1) (Expr.lit (LitVal.str v) raw) s = (s, Except.ok (Value.num (strToNum v)))) ∧
    (∀ v : String, (strToNum v).isNaN = true →
      evalE (f + 1) (Expr.lit (LitVal.str v) raw) s = (s, Except.ok (Value.str v))) ∧
    (∀ b : Bool, evalE (f + 1) (Expr.lit (LitVal.bool b) raw) s = (s, Except.ok (Value.bool b))) ∧
    (evalE (f + 1) (Expr.lit LitVal.null raw) s = (s, Except.ok Value.vnull)) := by
  refine ⟨fun v h => ?_, fun v h => ?_, fun b => rfl, rfl⟩
  · simp only [evalE, h, Bool.false_eq_true, if_false, ite_false]
  · simp only [evalE, h, if_true, ite_true]

/-- C8 witnessed at the numeric string "42" (which the parser stores for
both the bare numeral `42` and the quoted literal `"42"`, making them
runtime-indistinguishable) and at the non-numeric string "hello". -/
theorem C8_literal_coercion_witness :
    (evalE 1 (Expr.lit (LitVal.str "42") "42") { env := [], out := [], inputs := [] }
      = ({ env := [], out := [], inputs := [] }, Except.ok (Value.num (strToNum "42")))) ∧
    (evalE 1 (Expr.lit (LitVal.str "hello") "hello") { env := [], out := [], inputs := [] }
      = ({ env := [], out := [], inputs := [] }, Except.ok (Value.str "hello"))) := by
  constructor
  · exact (C8_literal_coercion 0 { env := [], out := [], inputs := [] } "42").1 "42" (by decide)
  · exact (C8_literal_coercion 0 { env := [], out := [], inputs := [] } "hello").2.1 "hello"
      (by decide)

/-! ## Claim C9: print statement semantics -/

/-- C9.  For a `PrintStatement` with at least one expression whose
expressions all evaluate successfully (left-to-right, threading state),
execution stringifies each value with `stringify` (`null` becomes the
text "nil", everything else `String(value)`), joins with the empty
separator, and appends exactly one resulting string to the output. -/
theorem C9_print_statement (f : Nat) (es : List Expr) (s s1 : St) (vs : List Value)
    (hne : es ≠ []) (hev : evalArgs f es s = (s1, Except.ok vs)) :
    execS (f + 1) (Stmt.print es) s
      = ({ s1 with out := s1.out ++ [String.join (vs.map stringify)] }, none) := by
  cases es with
  | nil => exact absurd rfl hne
  | cons e es' => simp only [execS, hev]

/-- C9 witnessed: printing the `rikam` (null) literal followed by the
string literal "a" sends the single string "nila". -/
theorem C9_print_statement_witness :
    execS 4 (Stmt.print [Expr.lit LitVal.null "rikam", Expr.lit (LitVal.str "a") "a"])
        { env := [], out := [], inputs := [] }
      = ({ env := [], out := ["nila"], inputs := [] }, none) :=
  C9_print_statement 3 [Expr.lit LitVal.null "rikam", Expr.lit (LitVal.str "a") "a"]
    { env := [], out := [], inputs := [] } { env := [], out := [], inputs := [] }
    [Value.vnull, Value.str "a"] (by intro h; cases h) rfl

/-! ## Claim C10: the empty string literal evaluates to the number 0 -/

/-- C10.  `Number("")` is `0`, not `NaN`, so the coercion branch fires:
evaluating the empty string literal yields the number `0`, and printing it
outputs the text "0" rather than an empty line. -/
theorem C10_empty_string_literal :
    evalE 1 (Expr.lit (LitVal.str "") "") { env := [], out := [], inputs := [] }
      = ({ env := [], out := [], inputs := [] }, Except.ok (Value.num (JsNum.fin 0))) ∧
    execS 3 (Stmt.print [Expr.lit (LitVal.str "") ""]) { env := [], out := [], inputs := [] }
      = ({ env := [], out := ["0"], inputs := [] }, none) := by
  exact ⟨rfl, rfl⟩

/-! ## Lexer embedding (`src/lexer.ts`, the variant with the
`chala suru karu` compound keywords) -/

/-- Lexer state: the fixed input characters plus `position`, `line`,
`column`. -/
structure LexSt where
  input : List Char
  pos : Nat
  line : Nat
  col : Nat
deriving DecidableEq, Repr

namespace LexSt

def isAtEnd (s : LexSt) : Bool := s.input.length ≤ s.pos

/-- `peek()`; the source returns the NUL character at end of input. -/
def peek (s : LexSt) : Char := s.input.getD s.pos '\x00'

def peekNext (s : LexSt) : Char := s.input.getD (s.pos + 1) '\x00'

/-- `advance()`: returns the consumed character and the updated state. -/
def advance (s : LexSt) : Char × LexSt :=
  if s.isAtEnd then ('\x00', s)
  else
    let c := s.input.getD s.pos '\x00'
    if c = '\n' then (c, { s with pos := s.pos + 1, line := s.line + 1, col := 1 })
    else (c, { s with pos := s.pos + 1, col := s.col + 1 })

/-- `createToken(type, value)`: positions are taken from the current
state, i.e. after the lexeme has been consumed. -/
def mkToken (s : LexSt) (t : TokenType) (v : String) : Token :=
  { type := t, value := v, line := s.line, column := s.col }

end LexSt

def isDigitL (c : Char) : Bool := '0' ≤ c && c ≤ '9'

def isAlphaL (c : Char) : Bool :=
  ('a' ≤ c && c ≤ 'z') || ('A' ≤ c && c ≤ 'Z') || c = '_'

def isAlphaNumericL (c : Char) : Bool := isAlphaL c || isDigitL c

/-- The keyword map of the lexer (keys are lower-cased identifier text). -/
def keywordsL (w : String) : Option TokenType :=
  if w = "chala" then some TokenType.CHALA_SURU_KARU
  else if w = "suru" then some TokenType.CHALA_SURU_KARU
  else if w = "karu" then some TokenType.CHALA_SURU_KARU
  else if w = "bas" then some TokenType.BAS_RE_ATA
  else if w = "re" then some TokenType.BAS_RE_ATA
  else if w = "ata" then some TokenType.BAS_RE_ATA
  else if w = "dakhava" then some TokenType.DAKHAVA
  else if w = "ghye" then some TokenType.GHYE
  else if w = "heahe" then some TokenType.HE_AHE
  else if w = "kaamkar" then some TokenType.KAAM_KAR
  else if w = "paratde" then some TokenType.PARAT_DE
  else if w = "jar" then some TokenType.JAR
  else if w = "nahitar" then some TokenType.NAHITAR
  else if w = "punhakar" then some TokenType.PUNHA_KAR
  else if w = "javastor" then some TokenType.PUNHA_KAR
  else if w = "pratyeksathi" then some TokenType.PRATYEK_SATHI
  else if w = "thamb" then some TokenType.THAMB
  else if w = "pudheja" then some TokenType.PUDHE_JA
  else if w = "yadi" then some TokenType.YADI
  else if w = "khara" then some TokenType.KHARA
  else if w = "khota" then some TokenType.KHOTA
  else if w = "rikam" then some TokenType.RIKAM
  else if w = "jod" then some TokenType.JOD
  else if w = "moj" then some TokenType.MOJ
  else if w = "mothaaheka" then some TokenType.MOTHA_AHE_KA
  else if w = "lahanaheka" then some TokenType.LAHAN_AHE_KA
  else if w = "sarkhaaheka" then some TokenType.SARKHA_AHE_KA
  else if w = "ani" then some TokenType.ANI
  else if w = "kimva" then some TokenType.KIMVA
  else if w = "nahi" then some TokenType.NAHI
  else none

/-- `skipWhitespace()`: spaces, newlines, tabs, carriage returns. -/
def skipWhitespaceL : Nat → LexSt → LexSt
  | 0, s => s
  | f + 1, s =>
    if s.isAtEnd then s
    else
      let c := s.peek
      if c = ' ' || c = '\n' || c = '\t' || c = '\r' then skipWhitespaceL f (s.advance).2
      else s

/-- `skipLineComment()`. -/
def skipLineCommentL : Nat → LexSt → LexSt
  | 0, s => s
  | f + 1, s =>
    if !s.isAtEnd && s.peek ≠ '\n' then skipLineCommentL f (s.advance).2 else s

/-- The scan loop of `skipBlockComment()` (after the leading slash-star
has been consumed).  If the terminator never appears, the loop simply
runs to end of input and returns — no error is raised. -/
def skipBlockCommentLoop : Nat → LexSt → LexSt
  | 0, s => s
  | f + 1, s =>
    if s.isAtEnd then s
    else if s.peek = '*' && s.peekNext = '/' then (((s.advance).2).advance).2
    else skipBlockCommentLoop f (s.advance).2

/-- `skipBlockComment()`: consumes the leading slash and star, then
scans. -/
def skipBlockCommentL (f : Nat) (s : LexSt) : LexSt :=
  skipBlockCommentLoop f (((s.advance).2).advance).2

/-- The scan loop of `string(quote)` (after the opening quote), carrying
the accumulated value; unterminated input and embedded line breaks throw
"Unterminated string at line L". -/
def stringLoop : Nat → LexSt → Char → String → Except String (Token × LexSt)
  | 0, _, _, _ => Except.error "out of fuel"
  | f + 1, s, quote, acc =>
    if s.isAtEnd then Except.error ("Unterminated string at line " ++ toString s.line)
    else
      let c := s.peek
      if c = quote then
        let s1 := (s.advance).2
        Except.ok (s1.mkToken TokenType.STRING acc, s1)
      else if c = '\n' || c = '\r' then
        Except.error ("Unterminated string at line " ++ toString s.line)
      else if c = '\\' then
        let s1 := (s.advance).2
        let n := s1.peek
        let esc :=
          if n = 'n' then "\n"
          else if n = 't' then "\t"
          else if n = 'r' then "\r"
          else if n = '\\' then "\\"
          else if n = '"' then "\""
          else if n = '\x27' then "'"
          else String.singleton n
        stringLoop f (s1.advance).2 quote (acc ++ esc)
      else stringLoop f (s.advance).2 quote (acc ++ String.singleton c)

/-- `string(quote)`: consumes the opening quote and scans. -/
def stringL (f : Nat) (s : LexSt) (quote : Char) : Except String (Token × LexSt) :=
  stringLoop f (s.advance).2 quote ""

/-- The digit-collecting loop of `number()` and `identifier()`. -/
def takeCharsL (p : Char → Bool) : Nat → LexSt → String → String × LexSt
  | 0, s, acc => (acc, s)
  | f + 1, s, acc =>
    if !s.isAtEnd && p s.peek then
      let (c, s1) := s.advance
      takeCharsL p f s1 (acc ++ String.singleton c)
    else (acc, s)

/-- `number()`: digits, optionally a decimal point followed by digits. -/
def numberL (f : Nat) (s : LexSt) : Token × LexSt :=
  let (v1, s1) := takeCharsL isDigitL f s ""
  if !s1.isAtEnd && s1.peek = '.' && isDigitL s1.peekNext then
    let s2 := (s1.advance).2
    let (v2, s3) := takeCharsL isDigitL f s2 ""
    (s3.mkToken TokenType.NUMBER (v1 ++ "." ++ v2), s3)
  else (s1.mkToken TokenType.NUMBER v1, s1)

/-- `matchWord`'s character-by-character scan; `none` models the restore
of the saved position on failure. -/
def matchWordCore : List Char → LexSt → Option LexSt
  | [], s => some s
  | c :: cs, s =>
    if s.isAtEnd || s.peek ≠ c then none else matchWordCore cs (s.advance).2

/-- `matchWord(word)`: the word's characters followed by a word
boundary; on failure the caller's state is kept (the source restores
position/line/column). -/
def matchWordL (w : String) (s : LexSt) : Option LexSt :=
  match matchWordCore w.data s with
  | none => none
  | some s1 => if !s1.isAtEnd && isAlphaNumericL s1.peek then none else some s1

/-- The single-word fallback of `handleIdentifierOrKeyword()`. -/
def singleWordToken (s : LexSt) (value : String) : Token × LexSt :=
  (s.mkToken ((keywordsL value.toLower).getD TokenType.IDENTIFIER) value, s)

/-- `handleIdentifierOrKeyword()`: reads an identifier, tries the
three-word compound keywords (whitespace skipped between words persists
even when the compound match fails), then falls back to the keyword
table and finally to a generic identifier. -/
def handleIdentKw (f : Nat) (s : LexSt) : Token × LexSt :=
  let (value, s1) := takeCharsL isAlphaNumericL f s ""
  if value.toLower = "chala" && s1.peek = ' ' then
    let s2 := skipWhitespaceL f s1
    match matchWordL "suru" s2 with
    | some s3 =>
      let s4 := skipWhitespaceL f s3
      match matchWordL "karu" s4 with
      | some s5 => (s5.mkToken TokenType.CHALA_SURU_KARU "chala suru karu", s5)
      | none => singleWordToken s4 value
    | none => singleWordToken s2 value
  else if value.toLower = "bas" && s1.peek = ' ' then
    let s2 := skipWhitespaceL f s1
    match matchWordL "re" s2 with
    | some s3 =>
      let s4 := skipWhitespaceL f s3
      match matchWordL "ata" s4 with
      | some s5 => (s5.mkToken TokenType.BAS_RE_ATA "bas re ata", s5)
      | none => singleWordToken s4 value
    | none => singleWordToken s2 value
  else singleWordToken s1 value

/-- `nextToken()`: identifiers/keywords, longest-match-first operators,
punctuation, strings, numbers; anything else throws
"Unexpected character 'c' at line L, column C".  (The `!` case without a
following `=` falls through the switch to that same throw.) -/
def nextTokenL (f : Nat) (s : LexSt) : Except String (Token × LexSt) :=
  let c := s.peek
  if isAlphaL c then Except.ok (handleIdentKw f s)
  else if c = '=' then
    if s.peekNext = '=' then
      let s2 := (((s.advance).2).advance).2
      Except.ok (s2.mkToken TokenType.EQUAL "==", s2)
    else
      let s1 := (s.advance).2
      Except.ok (s1.mkToken TokenType.ASSIGN "=", s1)
  else if c = '!' && s.peekNext = '=' then
    let s2 := (((s.advance).2).advance).2
    Except.ok (s2.mkToken TokenType.NOT_EQUAL "!=", s2)
  else if c = '>' then
    if s.peekNext = '=' then
      let s2 := (((s.advance).2).advance).2
      Except.ok (s2.mkToken TokenType.GREATER_EQUAL ">=", s2)
    else
      let s1 := (s.advance).2
      Except.ok (s1.mkToken TokenType.GREATER ">", s1)
  else if c = '<' then
    if s.peekNext = '=' then
      let s2 := (((s.advance).2).advance).2
      Except.ok (s2.mkToken TokenType.LESS_EQUAL "<=", s2)
    else
      let s1 := (s.advance).2
      Except.ok (s1.mkToken TokenType.LESS "<", s1)
  else if c = '+' then
    let s1 := (s.advance).2
    Except.ok (s1.mkToken TokenType.PLUS "+", s1)
  else if c = '-' then
    let s1 := (s.advance).2
    Except.ok (s1.mkToken TokenType.MINUS "-", s1)
  else if c = '*' then
    let s1 := (s.advance).2
    Except.ok (s1.mkToken TokenType.MULTIPLY "*", s1)
  else if c = '/' then
    let s1 := (s.advance).2
    Except.ok (s1.mkToken TokenType.DIVIDE "/", s1)
  else if c = '%' then
    let s1 := (s.advance).2
    Except.ok (s1.mkToken TokenType.MODULO "%", s1)
  else if c = '(' then
    let s1 := (s.advance).2
    Except.ok (s1.mkToken TokenType.LPAREN "(", s1)
  else if c = ')' then
    let s1 := (s.advance).2
    Except.ok (s1.mkToken TokenType.RPAREN ")", s1)
  else if c = '\x7b' then
    let s1 := (s.advance).2
    Except.ok (s1.mkToken TokenType.LBRACE (String.singleton '\x7b'), s1)
  else if c = '\x7d' then
    let s1 := (s.advance).2
    Except.ok (s1.mkToken TokenType.RBRACE (String.singleton '\x7d'), s1)
  else if c = '[' then
    let s1 := (s.advance).2
    Except.ok (s1.mkToken TokenType.LBRACKET "[", s1)
  else if c = ']' then
    let s1 := (s.advance).2
    Except.ok (s1.mkToken TokenType.RBRACKET "]", s1)
  else if c = ';' then
    let s1 := (s.advance).2
    Except.ok (s1.mkToken TokenType.SEMICOLON ";", s1)
  else if c = ',' then
    let s1 := (s.advance).2
    Except.ok (s1.mkToken TokenType.COMMA ",", s1)
  else if c = '.' then
    let s1 := (s.advance).2
    Except.ok (s1.mkToken TokenType.DOT ".", s1)
  else if c = '\n' then
    let s1 := (s.advance).2
    Except.ok (s1.mkToken TokenType.NEWLINE "\n", s1)
  else if c = '"' || c = '\x27' then stringL f s c
  else if isDigitL c then Except.ok (numberL f s)
  else
    Except.error ("Unexpected character '" ++ String.singleton c ++ "' at line " ++
      toString s.line ++ ", column " ++ toString s.col)

/-- The main loop of `tokenize()`: skip whitespace, skip comments,
otherwise scan one token and push it. -/
def tokenizeLoop : Nat → LexSt → List Token → Except String (List Token × LexSt)
  | 0, _, _ => Except.error "out of fuel"
  | f + 1, s, acc =>
    if s.isAtEnd then Except.ok (acc, s)
    else
      let s1 := skipWhitespaceL (f + 1) s
      if s1.isAtEnd then Except.ok (acc, s1)
      else if s1.peek = '/' && s1.peekNext = '/' then
        tokenizeLoop f (skipLineCommentL (f + 1) s1) acc
      else if s1.peek = '/' && s1.peekNext = '*' then
        tokenizeLoop f (skipBlockCommentL (f + 1) s1) acc
      else
        match nextTokenL (f + 1) s1 with
        | Except.error e => Except.error e
        | Except.ok (t, s2) => tokenizeLoop f s2 (acc ++ [t])

/-- `Lexer.tokenize(source)`: runs the scan loop from position 0, line 1,
column 1 (the fuel `length + 1` covers every iteration since each one
consumes at least one character) and appends the trailing EOF token. -/
def tokenize (src : String) : Except String (List Token) :=
  match tokenizeLoop (src.data.length + 1) { input := src.data, pos := 0, line := 1, col := 1 } [] with
  | Except.error e => Except.error e
  | Except.ok (ts, s1) => Except.ok (ts ++ [s1.mkToken TokenType.EOF ""])

/-! ## Claim C6: unterminated block comments -/

/-- C6 counterexample.  The claim states that a `/*` block comment never
closed before end of input makes `tokenize` raise a fatal lexical error
with line/column.  It does not: `skipBlockComment`'s scan loop simply
stops at end of input and tokenization succeeds, yielding only the EOF
token for the source "/* x". -/
theorem C6_counterexample :
    tokenize "/* x"
      = Except.ok [{ type := TokenType.EOF, value := "", line := 1, column := 5 }] := rfl

/-- C6 amended.  An unterminated block comment is consumed silently to
end of input and `tokenize` succeeds with just the EOF token, whereas an
unterminated string and an unexpected character do abort tokenization
with fatal errors carrying position information. -/
theorem C6_amended :
    tokenize "/*" = Except.ok [{ type := TokenType.EOF, value := "", line := 1, column := 3 }] ∧
    tokenize "\"abc" = Except.error "Unterminated string at line 1" ∧
    tokenize "@" = Except.error "Unexpected character '@' at line 1, column 1" := by
  exact ⟨rfl, rfl, rfl⟩

end AmchiScript
